import Mathlib

/-!
Verification development for an interactive EDA assistant.

The repository consists of an analysis tool set (eda_tools), a dispatch
agent wrapping an external model (agent.EDAAgent), and a report builder
(report_generator).  Python exceptions are embedded as an explicit error
type threaded through `Except`; external services (the model, image
encoding) are parameters, so theorems quantify over their behaviour.
-/

/-- Embedding of the Python exception kinds distinguished by the agent:
`ValueError` and `TypeError` are caught by the inner handler of
`EDAAgent.ask`; every other exception only by the outer handler. -/
inductive PyError where
  | valueError (m : String)
  | typeError (m : String)
  | otherError (m : String)
deriving DecidableEq, Repr

/-- Message carried by an exception (Python `str(e)`). -/
def PyError.msg : PyError → String
  | .valueError m => m
  | .typeError m => m
  | .otherError m => m

/-- Values passed as keyword arguments to a tool: model-extracted scalars
plus the dataframe the agent injects under the key `df`. -/
inductive PyVal where
  | strVal (s : String)
  | intVal (n : Int)
  | dfVal
deriving DecidableEq, Repr

/-- A Python keyword-argument dictionary (keys are distinct in Python;
we only ever inspect keys and membership, so a list of pairs suffices). -/
abbrev ArgDict := List (String × PyVal)

/-- Result of a tool call as discriminated by `ask`: a Matplotlib figure
(identified abstractly) or any other value (our tools return strings). -/
inductive ToolValue where
  | figure (fig : Nat)
  | textVal (s : String)
deriving DecidableEq, Repr

/-- The model reply obtained from `self.chat.send_message` followed by
`response.parts[0]`: the whole acquisition may raise, or the part has a
`function_call` attribute, or the reply is plain text. -/
inductive ModelReply where
  | raised (e : PyError)
  | textReply (s : String)
  | funcCall (name : String) (args : ArgDict)

/-- The tagged dictionaries returned by `EDAAgent.ask`, one constructor
per `"type"` value appearing in the source. -/
inductive AskResult where
  | text (data : String)
  | toolResult (data : ToolValue) (toolName : String)
  | plotWithInterpretation (plot : Nat) (interpretation : String)
  | error (data : String)
deriving DecidableEq, Repr

/-- Embedding of `EDAAgent.interpret_plot`.  The figure has already been
produced; `enc` is the outcome of `savefig` into the PNG buffer (which
happens before the `try` block, so its exception propagates), and
`vision` is the outcome of `self.model.generate_content` plus
`response.text` (inside the `try` block, so its exception is converted
to an error string returned as the interpretation). -/
def interpret_plot (enc : Except PyError Nat) (vision : Nat → Except PyError String) :
    Except PyError String :=
  match enc with
  | .error e => .error e
  | .ok img =>
    match vision img with
    | .ok t => .ok t
    | .error e => .ok ("Erro ao interpretar o gráfico: " ++ e.msg)

/-- A tool catalog: the agent resolves `function_call.name` against the
`__name__` of each function in `self.tools`. -/
abbrev ToolCatalog := List (String × (ArgDict → Except PyError ToolValue))

/-- Embedding of `next((t for t in self.tools if t.__name__ == tool_name), None)`. -/
def lookupTool (tools : ToolCatalog) (name : String) :
    Option (ArgDict → Except PyError ToolValue) :=
  (tools.find? (fun t => t.1 == name)).map Prod.snd

/-- Embedding of `tool_args[\x27df\x27] = self.df`: dictionary assignment
replaces any existing binding of the key. -/
def setKey (k : String) (v : PyVal) (args : ArgDict) : ArgDict :=
  args.filter (fun kv => kv.1 ≠ k) ++ [(k, v)]

/-- The inner `except (ValueError, TypeError)` handler of `ask`: those two
exception kinds are converted by `handler`; anything else propagates. -/
def catchVT (x : Except PyError AskResult) (handler : String → AskResult) :
    Except PyError AskResult :=
  match x with
  | .error (.valueError m) => .ok (handler m)
  | .error (.typeError m) => .ok (handler m)
  | other => other

/-- Body of the inner `try` of `ask`: call the tool with the model
arguments plus the injected dataframe; on a figure, interpret it and
return the composite result, otherwise return the raw tool result. -/
def toolCallBody (df : PyVal) (tool : ArgDict → Except PyError ToolValue)
    (args : ArgDict) (name : String) (enc : Nat → Except PyError Nat)
    (vision : Nat → Except PyError String) : Except PyError AskResult :=
  match tool (setKey "df" df args) with
  | .error e => .error e
  | .ok (.figure fig) =>
    match interpret_plot (enc fig) vision with
    | .error e => .error e
    | .ok interp => .ok (.plotWithInterpretation fig interp)
  | .ok (.textVal s) => .ok (.toolResult (.textVal s) name)

/-- Body of the outer `try` of `EDAAgent.ask`, with uncaught exceptions
surfacing as `Except.error`. -/
def askBody (df : PyVal) (tools : ToolCatalog) (reply : ModelReply)
    (enc : Nat → Except PyError Nat) (vision : Nat → Except PyError String) :
    Except PyError AskResult :=
  match reply with
  | .raised e => .error e
  | .textReply s => .ok (.text s)
  | .funcCall name args =>
    match lookupTool tools name with
    | none => .ok (AskResult.error ("Ferramenta \x27" ++ name ++ "\x27 não encontrada."))
    | some tool =>
      catchVT (toolCallBody df tool args name enc vision)
        (fun m => AskResult.error ("Erro ao usar a ferramenta \x27" ++ name ++ "\x27: " ++ m))

/-- Embedding of `EDAAgent.ask`: the outer `except Exception` converts any
exception still propagating into the tagged unexpected-error result. -/
def ask (df : PyVal) (tools : ToolCatalog) (reply : ModelReply)
    (enc : Nat → Except PyError Nat) (vision : Nat → Except PyError String) :
    AskResult :=
  match askBody df tools reply enc vision with
  | .ok r => r
  | .error e => AskResult.error ("Ocorreu um erro inesperado: " ++ e.msg)

/-- Check that a keyword-argument dictionary matches a Python signature:
every supplied key must name a parameter and every parameter without a
default must be supplied.  `f(**kwargs)` raises `TypeError` otherwise. -/
def bindsOk (params required : List String) (args : ArgDict) : Bool :=
  args.all (fun kv => params.contains kv.1) &&
    required.all (fun p => (args.map Prod.fst).contains p)

/-- Wrap a tool body with CPython call-time keyword binding: a mismatch
between supplied argument names and the signature raises `TypeError`
before the body runs. -/
def withSig (fname : String) (params required : List String)
    (body : ArgDict → Except PyError ToolValue) : ArgDict → Except PyError ToolValue :=
  fun args =>
    if bindsOk params required args then body args
    else .error (.typeError (fname ++ "() recebeu argumentos que não correspondem aos parâmetros"))

/-- One entry of the Streamlit chat history as consumed by
`ask_conclusion` and `create_pdf_report`: dictionary reads done with
`.get` are `Option`-valued, direct subscripts are plain fields. -/
structure ChatMessage where
  user : String
  msgType : Option String
  agent : Option String
  interpretation : String
  plot : Nat
deriving DecidableEq, Repr

/-- One line of the history summary built by `ask_conclusion` for a
single chat entry. -/
def summarizeItem (m : ChatMessage) : String :=
  let userPart := "Usuário perguntou: " ++ m.user
  let agentPart :=
    if m.msgType = some "plot_with_interpretation" then
      "Agente respondeu com um gráfico e a seguinte interpretação: " ++ m.interpretation
    else
      "Agente respondeu: " ++ m.agent.getD "N/A"
  userPart ++ "\n" ++ agentPart

/-- Fixed text of the conclusion prompt preceding the joined history. -/
def conclusionHeader : String :=
  "Com base no seguinte histórico de uma sessão de análise de dados, gere uma conclusão técnica e objetiva em formato de relatório.\nAponte os principais insights, padrões, anomalias e relações que foram descobertas.\nSeja estruturado e direto.\n\nHistórico da Conversa:\n"

/-- Fixed text of the conclusion prompt following the joined history. -/
def conclusionFooter : String := "\n\nConclusão Final:\n"

/-- The summarization prompt `ask_conclusion` submits: the per-entry
summaries joined in transcript order by the separator. -/
def conclusionPrompt (history : List ChatMessage) : String :=
  conclusionHeader ++ String.intercalate "\n---\n" (history.map summarizeItem) ++ conclusionFooter

/-- Fixed message returned when the transcript is empty. -/
def emptyHistoryMsg : String := "Não há histórico de análise para gerar uma conclusão."

/-- Embedding of `EDAAgent.ask_conclusion`.  `model` is the behaviour of
the stateless text model; the second component counts how many external
model calls were performed. -/
def ask_conclusion (history : List ChatMessage) (model : String → Except PyError String) :
    String × Nat :=
  if history.isEmpty then (emptyHistoryMsg, 0)
  else
    match model (conclusionPrompt history) with
    | .ok t => (t, 1)
    | .error e => ("Erro ao gerar conclusão: " ++ e.msg, 1)

/-- A dataframe column: its name, whether its dtype is numeric, and its
cell values (`none` embeds a missing value / NaN). -/
structure Column where
  name : String
  numeric : Bool
  values : List (Option String)
deriving DecidableEq, Repr

/-- A loaded dataset: an ordered list of named typed columns. -/
structure DataFrame where
  cols : List Column
deriving DecidableEq, Repr

/-- Embedding of `column_name in df.columns`. -/
def DataFrame.hasCol (df : DataFrame) (c : String) : Bool :=
  df.cols.any (fun col => col.name == c)

/-- Embedding of `pd.api.types.is_numeric_dtype(df[c])`. -/
def DataFrame.isNumeric (df : DataFrame) (c : String) : Bool :=
  ((df.cols.find? (fun col => col.name == c)).map Column.numeric).getD false

/-- The cell values of a named column (empty when absent). -/
def DataFrame.colValues (df : DataFrame) (c : String) : List (Option String) :=
  ((df.cols.find? (fun col => col.name == c)).map Column.values).getD []

/-- Embedding of `Series.dropna()`: the non-missing values in order. -/
def dropna (l : List (Option String)) : List String := l.filterMap id

/-- One step of first-occurrence deduplication. -/
def dedupStep {α : Type} [DecidableEq α] (acc : List α) (v : α) : List α :=
  if v ∈ acc then acc else acc ++ [v]

/-- First-occurrence deduplication over arbitrary cell values; with
`l : List (Option String)` this is `Series.unique()`, which keeps NaN
and returns values in order of appearance. -/
def firstUniques {α : Type} [DecidableEq α] (l : List α) : List α :=
  l.foldl dedupStep []

/-- Embedding of `Series.nunique()`: number of distinct non-missing
values (pandas excludes NaN by default). -/
def nuniqueNN (l : List (Option String)) : Nat := (firstUniques (dropna l)).length

/-- Comparison used to order a value-counts table by count, descending. -/
def countGe (p q : String × Nat) : Bool := q.2 ≤ p.2

/-- Embedding of `Series.value_counts()`: distinct non-missing values
with their multiplicities, sorted by count descending. -/
def valueCounts (l : List (Option String)) : List (String × Nat) :=
  ((firstUniques (dropna l)).map (fun v => (v, (dropna l).count v))).mergeSort countGe

/-- Chart objects, abstracted to the data that determines them. -/
inductive FigSpec where
  | histogramFig (column : String) (values : List String)
  | scatterFig (x y : String)
  | heatmapFig
  | boxPlotFig (column : String)
  | kmeansFig (x y : String) (k : Nat)
  | barChartFig (column : String) (bars : List (String × Nat))
deriving DecidableEq, Repr

/-- Embedding of `eda_tools.generate_histogram`. -/
def generate_histogram (df : DataFrame) (column_name : String) : Except PyError FigSpec :=
  if ¬ df.hasCol column_name then
    .error (.valueError ("Coluna \x27" ++ column_name ++ "\x27 não encontrada no DataFrame."))
  else if ¬ df.isNumeric column_name then
    .error (.typeError ("A coluna \x27" ++ column_name ++ "\x27 não é numérica e não pode ser usada para um histograma."))
  else
    .ok (.histogramFig column_name (dropna (df.colValues column_name)))

/-- The `for col in [column_x, column_y]` validation loop shared by
`generate_scatter_plot` and `perform_k_means_clustering`: each column in
turn is checked for existence, then for numeric dtype. -/
def checkNumericCols (df : DataFrame) (cols : List String)
    (notFound : String → String) (notNumeric : String → String) : Except PyError Unit :=
  match cols with
  | [] => .ok ()
  | c :: rest =>
    if ¬ df.hasCol c then .error (.valueError (notFound c))
    else if ¬ df.isNumeric c then .error (.typeError (notNumeric c))
    else checkNumericCols df rest notFound notNumeric

/-- Embedding of `eda_tools.generate_scatter_plot`. -/
def generate_scatter_plot (df : DataFrame) (column_x column_y : String) :
    Except PyError FigSpec :=
  match checkNumericCols df [column_x, column_y]
      (fun c => "Coluna \x27" ++ c ++ "\x27 não encontrada no DataFrame.")
      (fun c => "A coluna \x27" ++ c ++ "\x27 não é numérica. Gráficos de dispersão requerem dados numéricos.") with
  | .error e => .error e
  | .ok _ => .ok (.scatterFig column_x column_y)

/-- Embedding of `eda_tools.get_value_counts`. -/
def get_value_counts (df : DataFrame) (column_name : String) : Except PyError String :=
  if ¬ df.hasCol column_name then
    .error (.valueError ("Coluna \x27" ++ column_name ++ "\x27 não encontrada no DataFrame."))
  else
    .ok ("#### Contagem de valores para a coluna \x27" ++ column_name ++ "\x27:\n```\n"
      ++ String.intercalate "\n"
          ((valueCounts (df.colValues column_name)).map (fun p => p.1 ++ "    " ++ toString p.2))
      ++ "\n```")

/-- Embedding of `eda_tools.generate_box_plot`. -/
def generate_box_plot (df : DataFrame) (column_name : String) : Except PyError FigSpec :=
  if ¬ df.hasCol column_name then
    .error (.valueError ("Coluna \x27" ++ column_name ++ "\x27 não encontrada."))
  else if ¬ df.isNumeric column_name then
    .error (.typeError ("A coluna \x27" ++ column_name ++ "\x27 não é numérica e não pode ser usada para um box plot."))
  else
    .ok (.boxPlotFig column_name)

/-- Embedding of `df[[column_x, column_y]].dropna()`: the rows where both
named cells are present. -/
def pairedRows (df : DataFrame) (cx cy : String) : List (String × String) :=
  ((df.colValues cx).zip (df.colValues cy)).filterMap
    (fun p => match p with
      | (some a, some b) => some (a, b)
      | _ => none)

/-- Embedding of `eda_tools.perform_k_means_clustering`; reaching the
`.ok` branch is reaching the scaling-and-clustering computation. -/
def perform_k_means_clustering (df : DataFrame) (column_x column_y : String)
    (n_clusters : Nat := 3) : Except PyError FigSpec :=
  match checkNumericCols df [column_x, column_y]
      (fun c => "Coluna \x27" ++ c ++ "\x27 não encontrada.")
      (fun c => "A coluna \x27" ++ c ++ "\x27 não é numérica e não pode ser usada para clusterização.") with
  | .error e => .error e
  | .ok _ =>
    if (pairedRows df column_x column_y).length < n_clusters then
      .error (.valueError "Não há dados suficientes para formar os clusters solicitados.")
    else
      .ok (.kmeansFig column_x column_y n_clusters)

/-- Embedding of `eda_tools.analyze_missing_data`. -/
def analyze_missing_data (df : DataFrame) : String :=
  let missing := df.cols.filterMap (fun col =>
    let n := col.values.count none
    if n > 0 then some (col.name, n) else none)
  if missing.isEmpty then
    "Ótima notícia! Não foram encontrados dados faltantes em nenhuma coluna."
  else
    "#### Análise de Dados Faltantes:\nA contagem de valores nulos por coluna é a seguinte:\n```\n"
      ++ String.intercalate "\n" (missing.map (fun p => p.1 ++ "    " ++ toString p.2))
      ++ "\n```"

/-- Python `str(val)` on a cell value: NaN renders as `nan`. -/
def pyShow (v : Option String) : String := v.getD "nan"

/-- Rendering of a Python list of strings, as interpolated into the
unique-values report. -/
def pyStrList (xs : List String) : String :=
  "[" ++ String.intercalate ", " (xs.map (fun s => "\x27" ++ s ++ "\x27")) ++ "]"

/-- Header lines of the unique-values report. -/
def uvHeader (c : String) (n : Nat) : String :=
  "#### Análise de Valores Únicos para a Coluna \x27" ++ c ++ "\x27:\n"
    ++ "- **Número de valores únicos:** " ++ toString n ++ "\n"

/-- Embedding of `eda_tools.get_unique_values`. -/
def get_unique_values (df : DataFrame) (column_name : String) : Except PyError String :=
  if ¬ df.hasCol column_name then
    .error (.valueError ("Coluna \x27" ++ column_name ++ "\x27 não encontrada no DataFrame."))
  else
    let unique_values := firstUniques (df.colValues column_name)
    let num_unique := nuniqueNN (df.colValues column_name)
    if num_unique ≤ 20 then
      .ok (uvHeader column_name num_unique
        ++ "- **Valores:** `" ++ pyStrList (unique_values.map pyShow) ++ "`")
    else
      .ok (uvHeader column_name num_unique
        ++ "- **Amostra de valores:** `" ++ pyStrList ((unique_values.take 5).map pyShow)
        ++ "` (e mais " ++ toString (num_unique - 5) ++ ")")

/-- Embedding of `eda_tools.generate_value_counts_bar_chart`; the chart
carries `value_counts().nlargest(15)`, i.e. the first fifteen rows of
the count-descending table. -/
def generate_value_counts_bar_chart (df : DataFrame) (column_name : String) :
    Except PyError FigSpec :=
  if ¬ df.hasCol column_name then
    .error (.valueError ("Coluna \x27" ++ column_name ++ "\x27 não encontrada."))
  else if df.isNumeric column_name ∧ nuniqueNN (df.colValues column_name) > 20 then
    .error (.typeError ("A coluna \x27" ++ column_name ++ "\x27 é numérica com muitos valores. Use um histograma."))
  else
    .ok (.barChartFig column_name ((valueCounts (df.colValues column_name)).take 15))

/-- Abstract content items emitted into the PDF in order; font changes
and spacing are layout, not content, and are not modelled. -/
inductive PdfItem where
  | pageBreak
  | chapterTitle (s : String)
  | sectionHeader (s : String)
  | body (s : String)
  | image (fig : Nat)
deriving DecidableEq, Repr

/-- Embedding of the latin-1 replace round-trip applied by
`chapter_body`: characters outside latin-1 are replaced by a question
mark, everything else passes through. -/
def latin1Sanitize (s : String) : String :=
  s.map (fun ch => if ch.toNat < 256 then ch else Char.ofNat 63)

/-- One entry of the automatic pre-analysis report. -/
inductive ReportEntry where
  | textEntry (content : String)
  | plotEntry (content : Nat)
deriving DecidableEq, Repr

/-- Items emitted for one pre-analysis entry (the source also strips
markdown fences from text entries before writing them). -/
def reportEntryItems (r : ReportEntry) : List PdfItem :=
  match r with
  | .textEntry s => [.body (latin1Sanitize (s.replace "####" "" |>.replace "```" ""))]
  | .plotEntry fig => [.image fig]

/-- Items emitted for section 3 of the report, one header per section
followed by its entries in order. -/
def initialReportItems (initial : List (String × List ReportEntry)) : List PdfItem :=
  initial.flatMap (fun sec => .sectionHeader sec.1 :: sec.2.flatMap reportEntryItems)

/-- Items emitted for one chat-history message in section 4: the user
question, then either the chart plus its interpretation or the plain
agent text. -/
def messageItems (m : ChatMessage) : List PdfItem :=
  .body (latin1Sanitize ("Usuário: " ++ m.user)) ::
    (if m.msgType = some "plot_with_interpretation" then
      [.body (latin1Sanitize "Agente: (Gráfico gerado abaixo com interpretação)"),
       .image m.plot,
       .body (latin1Sanitize ("Interpretação do Agente:\n" ++ m.interpretation))]
    else
      [.body (latin1Sanitize ("Agente: " ++ m.agent.getD "N/A"))])

/-- The transcript section of the report: the items of every history
message, concatenated in transcript order. -/
def transcriptSection (history : List ChatMessage) : List PdfItem :=
  history.flatMap messageItems

/-- Embedding of `report_generator.create_pdf_report` as the ordered
sequence of content items written to the document; `analysisDate` stands
for the `datetime.now()` stamp. -/
def create_pdf_report (history : List ChatMessage) (conclusion fileName analysisDate : String)
    (initial : List (String × List ReportEntry)) : List PdfItem :=
  [PdfItem.chapterTitle "1. Resumo da Análise",
   .body (latin1Sanitize ("Arquivo Analisado: " ++ fileName)),
   .body (latin1Sanitize ("Data da Análise: " ++ analysisDate)),
   .chapterTitle "2. Conclusão Principal Gerada pela IA",
   .body (latin1Sanitize conclusion)]
  ++ (if initial.isEmpty then []
      else PdfItem.pageBreak :: PdfItem.chapterTitle "3. Análise Automática Inicial"
        :: initialReportItems initial)
  ++ (if history.isEmpty then []
      else PdfItem.pageBreak :: PdfItem.chapterTitle "4. Análise Detalhada (Histórico do Chat)"
        :: transcriptSection history)

/-- Number of embedded images among a list of emitted items. -/
def imageCount (items : List PdfItem) : Nat :=
  items.countP (fun i => match i with | .image _ => true | _ => false)

/-- Whether a chat message is a chart-with-interpretation entry. -/
def isPlotMessage (m : ChatMessage) : Bool :=
  m.msgType = some "plot_with_interpretation"

/-- Whether an `Except` outcome is a propagating exception. -/
def raisesException {α : Type} (x : Except PyError α) : Bool :=
  match x with
  | .error _ => true
  | .ok _ => false

/-- Concrete dataset with one categorical column, used as witness data. -/
def dfCity : DataFrame :=
  ⟨[⟨"city", false, [some "sp", some "rj", some "sp", some "bh"]⟩]⟩

/-- Concrete dataset whose column has 23 distinct values. -/
def df23 : DataFrame :=
  ⟨[⟨"c", false, (List.range 23).map (fun i => some (toString i))⟩]⟩

/-- Concrete numeric dataset with one fully-paired row. -/
def dfNum : DataFrame :=
  ⟨[⟨"x", true, [some "1", some "2", none]⟩, ⟨"y", true, [some "3", none, some "4"]⟩]⟩

/-- Concrete chart-with-interpretation chat entry. -/
def msgPlot : ChatMessage :=
  ⟨"mostre a distribuição de idade", some "plot_with_interpretation", none,
   "o gráfico mostra uma tendência crescente", 7⟩

/-- Concrete plain-text chat entry. -/
def msgText : ChatMessage :=
  ⟨"quantas linhas tem o arquivo", some "text", some "o arquivo tem 100 linhas", "", 0⟩

/-- Demo histogram tool body guarded by its CPython signature. -/
def histSig : ArgDict → Except PyError ToolValue :=
  withSig "generate_histogram" ["df", "column_name"] ["df", "column_name"]
    (fun _ => .ok (.textVal "fig"))

/-- Demo tool catalog holding only the guarded histogram tool. -/
def demoTools : ToolCatalog := [("generate_histogram", histSig)]

/-- C1: whatever the model reply, the resolved tool, or the behaviour of
the tool and the interpretation services, `ask` returns a tagged result
and never lets an exception propagate: every outcome of the inner body
is either returned as is or converted to a tagged error, and each
failure mode (reply acquisition raising, unresolved tool name,
validation `ValueError`/`TypeError` from the tool call, any other
exception from the tool call) yields a tagged error carrying a
message. -/
theorem ask_never_propagates (df : PyVal) (tools : ToolCatalog)
    (enc : Nat → Except PyError Nat) (vision : Nat → Except PyError String) :
    (∀ reply : ModelReply,
      (∃ r, askBody df tools reply enc vision = .ok r ∧ ask df tools reply enc vision = r) ∨
      (∃ e, askBody df tools reply enc vision = .error e ∧
        ask df tools reply enc vision =
          AskResult.error ("Ocorreu um erro inesperado: " ++ e.msg))) ∧
    (∀ e, ask df tools (.raised e) enc vision =
      AskResult.error ("Ocorreu um erro inesperado: " ++ e.msg)) ∧
    (∀ name args, lookupTool tools name = none →
      ask df tools (.funcCall name args) enc vision =
        AskResult.error ("Ferramenta \x27" ++ name ++ "\x27 não encontrada.")) ∧
    (∀ name args tool m, lookupTool tools name = some tool →
      (tool (setKey "df" df args) = .error (.valueError m) ∨
        tool (setKey "df" df args) = .error (.typeError m)) →
      ask df tools (.funcCall name args) enc vision =
        AskResult.error ("Erro ao usar a ferramenta \x27" ++ name ++ "\x27: " ++ m)) ∧
    (∀ name args tool m, lookupTool tools name = some tool →
      tool (setKey "df" df args) = .error (.otherError m) →
      ask df tools (.funcCall name args) enc vision =
        AskResult.error ("Ocorreu um erro inesperado: " ++ m)) := by
  refine ⟨?_, ?_, ?_, ?_, ?_⟩
  · intro reply
    cases h : askBody df tools reply enc vision with
    | ok r => exact Or.inl ⟨r, rfl, by simp [ask, h]⟩
    | error e => exact Or.inr ⟨e, rfl, by simp [ask, h]⟩
  · intro e
    rfl
  · intro name args hnone
    simp [ask, askBody, hnone]
  · intro name args tool m hl hvt
    rcases hvt with hv | hv <;>
      simp [ask, askBody, hl, catchVT, toolCallBody, hv]
  · intro name args tool m hl hv
    simp [ask, askBody, hl, catchVT, toolCallBody, hv, PyError.msg]

/-- Witness for C1 at a concrete input: an unresolved tool name yields
the tagged tool-not-found error. -/
theorem ask_never_propagates_witness :
    ask PyVal.dfVal demoTools (.funcCall "foo" []) (fun n => .ok n) (fun _ => .ok "x") =
      AskResult.error ("Ferramenta \x27foo\x27 não encontrada.") :=
  (ask_never_propagates PyVal.dfVal demoTools (fun n => .ok n) (fun _ => .ok "x")).2.2.1
    "foo" [] rfl

/-- Counterexample to C2 as stated: a failure while encoding the figure
to PNG happens before the `try` block of `interpret_plot`, so it
propagates as an exception instead of being returned as an error
string. -/
theorem interpret_plot_encoding_counterexample :
    interpret_plot (.error (.otherError "falha ao salvar a figura PNG"))
        (fun _ => .ok "descrição") =
      .error (.otherError "falha ao salvar a figura PNG") ∧
    raisesException (interpret_plot (.error (.otherError "falha ao salvar a figura PNG"))
        (fun _ => .ok "descrição")) = true :=
  ⟨rfl, rfl⟩

/-- C2 amended: once the figure has been encoded successfully,
`interpret_plot` never raises — a failure of the external vision call is
returned as an error string embedded as the interpretation — but a
failure during figure encoding itself propagates to the caller. -/
theorem interpret_plot_degrade (img : Nat) (vision : Nat → Except PyError String)
    (e : PyError) :
    (∃ s, interpret_plot (.ok img) vision = .ok s) ∧
    (∀ m, vision img = .error m →
      interpret_plot (.ok img) vision =
        .ok ("Erro ao interpretar o gráfico: " ++ m.msg)) ∧
    interpret_plot (.error e) vision = .error e := by
  refine ⟨?_, ?_, rfl⟩
  · cases hv : vision img with
    | ok t => exact ⟨t, by simp [interpret_plot, hv]⟩
    | error m => exact ⟨"Erro ao interpretar o gráfico: " ++ m.msg, by simp [interpret_plot, hv]⟩
  · intro m hm
    simp [interpret_plot, hm]

/-- Witness for C2 amended at a concrete input: a network failure of the
vision call degrades to an error-string interpretation. -/
theorem interpret_plot_degrade_witness :
    interpret_plot (.ok 0) (fun _ => .error (.otherError "falha de rede")) =
      .ok ("Erro ao interpretar o gráfico: " ++ (PyError.otherError "falha de rede").msg) :=
  (interpret_plot_degrade 0 (fun _ => .error (.otherError "falha de rede"))
    (.otherError "x")).2.1 _ rfl

/-- C4: a plain text model reply, with no tool invocation chosen, makes
`ask` return the Text-tagged result carrying the reply text. -/
theorem ask_text_reply (df : PyVal) (tools : ToolCatalog) (s : String)
    (enc : Nat → Except PyError Nat) (vision : Nat → Except PyError String) :
    ask df tools (.textReply s) enc vision = AskResult.text s := rfl

/-- C10: when the model-issued arguments do not match the resolved tool
signature (wrong, missing or extra keyword), the call raises `TypeError`
at binding time, which `ask` catches exactly like a tool validation
error, returning the tagged error that names the tool. -/
theorem ask_kwargs_mismatch (df : PyVal) (tools : ToolCatalog)
    (enc : Nat → Except PyError Nat) (vision : Nat → Except PyError String)
    (name fname : String) (args : ArgDict) (params required : List String)
    (body : ArgDict → Except PyError ToolValue)
    (hl : lookupTool tools name = some (withSig fname params required body))
    (hb : bindsOk params required (setKey "df" df args) = false) :
    ask df tools (.funcCall name args) enc vision =
      AskResult.error ("Erro ao usar a ferramenta \x27" ++ name ++ "\x27: " ++
        (fname ++ "() recebeu argumentos que não correspondem aos parâmetros")) := by
  simp [ask, askBody, hl, catchVT, toolCallBody, withSig, hb]

/-- Witness for C10 at a concrete input: the model supplies the key
`colname` instead of `column_name`, and `ask` returns the tagged tool
error naming `generate_histogram`. -/
theorem ask_kwargs_mismatch_witness :
    ask PyVal.dfVal demoTools
        (.funcCall "generate_histogram" [("colname", .strVal "age")])
        (fun n => .ok n) (fun _ => .ok "x") =
      AskResult.error ("Erro ao usar a ferramenta \x27generate_histogram\x27: " ++
        ("generate_histogram" ++ "() recebeu argumentos que não correspondem aos parâmetros")) :=
  ask_kwargs_mismatch PyVal.dfVal demoTools (fun n => .ok n) (fun _ => .ok "x")
    "generate_histogram" "generate_histogram" [("colname", .strVal "age")]
    ["df", "column_name"] ["df", "column_name"] (fun _ => .ok (.textVal "fig")) rfl rfl

/-- C6: on an empty transcript `ask_conclusion` returns the fixed
precondition message and performs zero external model calls; on a
non-empty transcript it performs exactly one call, on the prompt built
from the per-entry summaries joined in transcript order (the i-th
summary line comes from the i-th transcript entry). -/
theorem ask_conclusion_spec :
    (∀ model, ask_conclusion [] model = (emptyHistoryMsg, 0)) ∧
    (∀ (history : List ChatMessage) model, history ≠ [] →
      (ask_conclusion history model).2 = 1 ∧
      ask_conclusion history model =
        (match model (conclusionPrompt history) with
          | .ok t => (t, 1)
          | .error e => ("Erro ao gerar conclusão: " ++ e.msg, 1))) ∧
    (∀ (history : List ChatMessage) (i : Nat),
      (history.map summarizeItem)[i]? = (history[i]?).map summarizeItem) := by
  refine ⟨fun model => rfl, ?_, ?_⟩
  · intro history model hne
    have hemp : history.isEmpty = false := by
      cases history with
      | nil => exact absurd rfl hne
      | cons a l => rfl
    constructor
    · cases hm : model (conclusionPrompt history) <;>
        simp [ask_conclusion, hemp, hm]
    · cases hm : model (conclusionPrompt history) <;>
        simp [ask_conclusion, hemp, hm]
  · intro history i
    exact List.getElem?_map summarizeItem history i

/-- Witness for C6 at a concrete input: a one-entry transcript performs
exactly one model call and returns its text. -/
theorem ask_conclusion_spec_witness :
    (ask_conclusion [msgText] (fun _ => .ok "conclusão final")).2 = 1 ∧
    ask_conclusion [msgText] (fun _ => .ok "conclusão final") = ("conclusão final", 1) := by
  have h := ask_conclusion_spec.2.1 [msgText] (fun _ => .ok "conclusão final") (by simp)
  exact ⟨h.1, h.2.trans rfl⟩

/-- The deduplication step keeps an element it is given. -/
theorem mem_dedupStep_self {α : Type} [DecidableEq α] (acc : List α) (w : α) :
    w ∈ dedupStep acc w := by
  by_cases h : w ∈ acc <;> simp [dedupStep, h]

/-- The deduplication step keeps everything already accumulated. -/
theorem mem_dedupStep_of_mem {α : Type} [DecidableEq α] {acc : List α} {v : α} (w : α)
    (h : v ∈ acc) : v ∈ dedupStep acc w := by
  by_cases hw : w ∈ acc <;> simp [dedupStep, hw, h]

/-- Every element of the traversed list makes it into the left fold of
the deduplication step. -/
theorem mem_foldl_dedupStep {α : Type} [DecidableEq α] :
    ∀ (l acc : List α) (v : α), v ∈ l ∨ v ∈ acc →
      v ∈ l.foldl dedupStep acc := by
  intro l
  induction l with
  | nil =>
    intro acc v h
    simpa using h
  | cons w rest ih =>
    intro acc v h
    simp only [List.foldl_cons]
    rcases h with h | h
    · rcases List.mem_cons.mp h with rfl | h2
      · exact ih _ _ (Or.inr (mem_dedupStep_self acc v))
      · exact ih _ _ (Or.inl h2)
    · exact ih _ _ (Or.inr (mem_dedupStep_of_mem w h))

/-- Every value occurring in a column occurs in `firstUniques` of it. -/
theorem mem_firstUniques {α : Type} [DecidableEq α] {l : List α} {v : α} (h : v ∈ l) :
    v ∈ firstUniques l :=
  mem_foldl_dedupStep l [] v (Or.inl h)

/-- Dropping missing values commutes with first-occurrence
deduplication, in folded form. -/
theorem foldl_dedup_filterMap :
    ∀ (l acc : List (Option String)),
      (l.foldl dedupStep acc).filterMap id =
        (l.filterMap id).foldl dedupStep (acc.filterMap id) := by
  intro l
  induction l with
  | nil =>
    intro acc
    simp
  | cons v rest ih =>
    intro acc
    cases v with
    | none =>
      have hstep : (dedupStep acc none).filterMap id = acc.filterMap id := by
        by_cases hmem : (none : Option String) ∈ acc <;> simp [dedupStep, hmem]
      simp only [List.foldl_cons]
      rw [ih, hstep]
      rfl
    | some s =>
      have hiff : s ∈ acc.filterMap id ↔ some s ∈ acc := by
        simp [List.mem_filterMap]
      have hstep : (dedupStep acc (some s)).filterMap id = dedupStep (acc.filterMap id) s := by
        by_cases hmem : some s ∈ acc
        · simp [dedupStep, hmem, hiff.mpr hmem]
        · simp [dedupStep, hmem, fun hc => hmem (hiff.mp hc)]
      simp only [List.foldl_cons]
      rw [ih, hstep]
      rfl

/-- The distinct non-missing values are the non-missing entries of the
distinct values, in order. -/
theorem firstUniques_dropna (l : List (Option String)) :
    firstUniques (dropna l) = (firstUniques l).filterMap id := by
  unfold firstUniques dropna
  exact (foldl_dedup_filterMap l []).symm

/-- The non-missing distinct count never exceeds the number of distinct
values (missing value included). -/
theorem nuniqueNN_le_firstUniques_length (l : List (Option String)) :
    nuniqueNN l ≤ (firstUniques l).length := by
  rw [nuniqueNN, firstUniques_dropna]
  exact List.length_filterMap_le _ _

/-- C3: for any column present in the schema, the unique-values report
lists every distinct value of the column when the non-missing distinct
count is at most 20, and otherwise lists exactly 5 values together with
a remainder count equal to the distinct count minus 5. -/
theorem get_unique_values_spec (df : DataFrame) (c : String) (h : df.hasCol c = true) :
    (nuniqueNN (df.colValues c) ≤ 20 →
      get_unique_values df c = .ok (uvHeader c (nuniqueNN (df.colValues c))
          ++ "- **Valores:** `" ++ pyStrList ((firstUniques (df.colValues c)).map pyShow) ++ "`")
      ∧ ∀ v ∈ df.colValues c, v ∈ firstUniques (df.colValues c)) ∧
    (20 < nuniqueNN (df.colValues c) →
      ((firstUniques (df.colValues c)).take 5).length = 5 ∧
      get_unique_values df c = .ok (uvHeader c (nuniqueNN (df.colValues c))
          ++ "- **Amostra de valores:** `"
          ++ pyStrList (((firstUniques (df.colValues c)).take 5).map pyShow)
          ++ "` (e mais " ++ toString (nuniqueNN (df.colValues c) - 5) ++ ")")) := by
  constructor
  · intro h20
    constructor
    · simp [get_unique_values, h, h20]
    · intro v hv
      exact mem_firstUniques hv
  · intro h20
    constructor
    · rw [List.length_take]
      have h5 : 5 ≤ (firstUniques (df.colValues c)).length :=
        le_trans (le_trans (by omega) h20.le) (nuniqueNN_le_firstUniques_length _)
      omega
    · simp [get_unique_values, h, Nat.not_le.mpr h20]

/-- Witness for C3 at a concrete input: 23 distinct values produce a
5-element sample and the remainder count 18. -/
theorem get_unique_values_spec_witness :
    ((firstUniques (df23.colValues "c")).take 5).length = 5 ∧
    get_unique_values df23 "c" = .ok (uvHeader "c" (nuniqueNN (df23.colValues "c"))
        ++ "- **Amostra de valores:** `"
        ++ pyStrList (((firstUniques (df23.colValues "c")).take 5).map pyShow)
        ++ "` (e mais " ++ toString (nuniqueNN (df23.colValues "c") - 5) ++ ")") :=
  (get_unique_values_spec df23 "c" (by decide)).2 (by decide)

/-- Supplementary evaluation for C3: the concrete witness column indeed
has 23 distinct values and reports the remainder 18. -/
theorem get_unique_values_df23_remainder :
    nuniqueNN (df23.colValues "c") = 23 ∧ nuniqueNN (df23.colValues "c") - 5 = 18 := by
  decide

/-- C5: with both columns present and numeric, a cluster count larger
than the number of rows that survive dropping missing pairs makes
`perform_k_means_clustering` fail with the insufficient-data
`ValueError` before any clustering computation is reached. -/
theorem kmeans_insufficient_data (df : DataFrame) (cx cy : String) (n : Nat)
    (hx : df.hasCol cx = true) (hnx : df.isNumeric cx = true)
    (hy : df.hasCol cy = true) (hny : df.isNumeric cy = true)
    (hn : (pairedRows df cx cy).length < n) :
    perform_k_means_clustering df cx cy n =
      .error (.valueError "Não há dados suficientes para formar os clusters solicitados.") := by
  simp [perform_k_means_clustering, checkNumericCols, hx, hnx, hy, hny, hn]

/-- Witness for C5 at a concrete input: one fully-paired row and five
requested clusters yield the insufficient-data error. -/
theorem kmeans_insufficient_data_witness :
    perform_k_means_clustering dfNum "x" "y" 5 =
      .error (.valueError "Não há dados suficientes para formar os clusters solicitados.") :=
  kmeans_insufficient_data dfNum "x" "y" 5 rfl rfl rfl rfl (by decide)

/-- Counterexample to C7 as stated: invoking the scatter tool with an
absent second column but a non-numeric first column raises the
type-mismatch `TypeError`, not the column-not-found `ValueError`, because
the per-column validation loop fully checks the first column before
looking at the second. -/
theorem scatter_absent_column_counterexample :
    dfCity.hasCol "missing" = false ∧
    generate_scatter_plot dfCity "city" "missing" =
      .error (.typeError "A coluna \x27city\x27 não é numérica. Gráficos de dispersão requerem dados numéricos.") :=
  ⟨rfl, rfl⟩

/-- C7 amended: every tool taking a named column rejects a column absent
from the schema with the column-not-found `ValueError` before any
computation on the data; for the two-column tools the absent first
column is always reported, and the absent second column is reported
provided the first column passed its existence and numeric checks. -/
theorem column_not_found_checks (df : DataFrame) (c : String) (hc : df.hasCol c = false) :
    generate_histogram df c =
      .error (.valueError ("Coluna \x27" ++ c ++ "\x27 não encontrada no DataFrame.")) ∧
    get_value_counts df c =
      .error (.valueError ("Coluna \x27" ++ c ++ "\x27 não encontrada no DataFrame.")) ∧
    get_unique_values df c =
      .error (.valueError ("Coluna \x27" ++ c ++ "\x27 não encontrada no DataFrame.")) ∧
    generate_box_plot df c =
      .error (.valueError ("Coluna \x27" ++ c ++ "\x27 não encontrada.")) ∧
    generate_value_counts_bar_chart df c =
      .error (.valueError ("Coluna \x27" ++ c ++ "\x27 não encontrada.")) ∧
    (∀ y, generate_scatter_plot df c y =
      .error (.valueError ("Coluna \x27" ++ c ++ "\x27 não encontrada no DataFrame."))) ∧
    (∀ y n, perform_k_means_clustering df c y n =
      .error (.valueError ("Coluna \x27" ++ c ++ "\x27 não encontrada."))) ∧
    (∀ x, df.hasCol x = true → df.isNumeric x = true →
      generate_scatter_plot df x c =
        .error (.valueError ("Coluna \x27" ++ c ++ "\x27 não encontrada no DataFrame."))) ∧
    (∀ x n, df.hasCol x = true → df.isNumeric x = true →
      perform_k_means_clustering df x c n =
        .error (.valueError ("Coluna \x27" ++ c ++ "\x27 não encontrada."))) := by
  refine ⟨?_, ?_, ?_, ?_, ?_, ?_, ?_, ?_, ?_⟩
  · simp [generate_histogram, hc]
  · simp [get_value_counts, hc]
  · simp [get_unique_values, hc]
  · simp [generate_box_plot, hc]
  · simp [generate_value_counts_bar_chart, hc]
  · intro y
    simp [generate_scatter_plot, checkNumericCols, hc]
  · intro y n
    simp [perform_k_means_clustering, checkNumericCols, hc]
  · intro x hx hnx
    simp [generate_scatter_plot, checkNumericCols, hx, hnx, hc]
  · intro x n hx hnx
    simp [perform_k_means_clustering, checkNumericCols, hx, hnx, hc]

/-- Witness for C7 amended at a concrete input: the histogram tool on an
absent column yields the column-not-found error. -/
theorem column_not_found_checks_witness :
    generate_histogram dfCity "idade" =
      .error (.valueError ("Coluna \x27idade\x27 não encontrada no DataFrame.")) :=
  (column_not_found_checks dfCity "idade" rfl).1

/-- The count-descending comparison is transitive. -/
theorem countGe_trans : ∀ (a b c : String × Nat),
    countGe a b = true → countGe b c = true → countGe a c = true := by
  intro a b c hab hbc
  simp only [countGe, decide_eq_true_eq] at hab hbc ⊢
  exact le_trans hbc hab

/-- The count-descending comparison is total. -/
theorem countGe_total : ∀ (a b : String × Nat), (countGe a b || countGe b a) = true := by
  intro a b
  simp only [countGe, Bool.or_eq_true, decide_eq_true_eq]
  exact le_total b.2 a.2

/-- A value-counts table has one row per distinct non-missing value. -/
theorem valueCounts_length (l : List (Option String)) :
    (valueCounts l).length = nuniqueNN l := by
  unfold valueCounts nuniqueNN
  rw [(List.mergeSort_perm _ countGe).length_eq, List.length_map]

/-- Rows of a value-counts table pair a distinct non-missing value with
its multiplicity. -/
theorem valueCounts_mem (l : List (Option String)) (p : String × Nat)
    (hp : p ∈ valueCounts l) :
    p.1 ∈ firstUniques (dropna l) ∧ p.2 = (dropna l).count p.1 := by
  have hpp : p ∈ (firstUniques (dropna l)).map (fun v => (v, (dropna l).count v)) :=
    ((List.mergeSort_perm _ countGe).mem_iff).mp hp
  rcases List.mem_map.mp hpp with ⟨v, hv, rfl⟩
  exact ⟨hv, rfl⟩

/-- A value-counts table is sorted by count, descending. -/
theorem valueCounts_sorted (l : List (Option String)) :
    (valueCounts l).Pairwise (fun a b => countGe a b = true) :=
  List.sorted_mergeSort countGe_trans countGe_total _

/-- Every distinct non-missing value has its row in the table. -/
theorem valueCounts_complete (l : List (Option String)) (w : String)
    (hw : w ∈ firstUniques (dropna l)) :
    (w, (dropna l).count w) ∈ valueCounts l :=
  ((List.mergeSort_perm _ countGe).mem_iff).mpr
    (List.mem_map_of_mem (fun v => (v, (dropna l).count v)) hw)

/-- C8: `generate_value_counts_bar_chart` rejects a numeric column with
more than 20 distinct values with the type-mismatch `TypeError`, and for
every accepted column charts one bar per distinct value up to 15 bars
(all values when fewer than 15 are distinct), each bar carrying the
value multiplicity, with no uncharted value more frequent than any
charted bar. -/
theorem bar_chart_top15 (df : DataFrame) (c : String) (h : df.hasCol c = true) :
    (df.isNumeric c = true → 20 < nuniqueNN (df.colValues c) →
      generate_value_counts_bar_chart df c =
        .error (.typeError ("A coluna \x27" ++ c ++ "\x27 é numérica com muitos valores. Use um histograma."))) ∧
    (¬ (df.isNumeric c = true ∧ 20 < nuniqueNN (df.colValues c)) →
      ∃ bars,
        generate_value_counts_bar_chart df c = .ok (.barChartFig c bars) ∧
        bars.length = min 15 (nuniqueNN (df.colValues c)) ∧
        (∀ p ∈ bars, p.1 ∈ firstUniques (dropna (df.colValues c)) ∧
          p.2 = (dropna (df.colValues c)).count p.1) ∧
        (∀ p ∈ bars, ∀ w ∈ firstUniques (dropna (df.colValues c)),
          w ∉ bars.map Prod.fst → (dropna (df.colValues c)).count w ≤ p.2)) := by
  constructor
  · intro hnum h20
    simp [generate_value_counts_bar_chart, h, hnum, h20]
  · intro hno
    refine ⟨(valueCounts (df.colValues c)).take 15, ?_, ?_, ?_, ?_⟩
    · simp [generate_value_counts_bar_chart, h, hno]
    · rw [List.length_take, valueCounts_length]
    · intro p hp
      exact valueCounts_mem _ p (List.mem_of_mem_take hp)
    · intro p hp w hw hnotin
      have hws : (w, (dropna (df.colValues c)).count w) ∈ valueCounts (df.colValues c) :=
        valueCounts_complete _ w hw
      have hsplit := List.take_append_drop 15 (valueCounts (df.colValues c))
      have hsorted : (List.take 15 (valueCounts (df.colValues c)) ++
          List.drop 15 (valueCounts (df.colValues c))).Pairwise
            (fun a b => countGe a b = true) := by
        rw [hsplit]
        exact valueCounts_sorted _
      have hws2 : (w, (dropna (df.colValues c)).count w) ∈
          List.take 15 (valueCounts (df.colValues c)) ++
            List.drop 15 (valueCounts (df.colValues c)) := by
        rw [hsplit]
        exact hws
      rcases List.mem_append.mp hws2 with hin | hin
      · exact absurd (List.mem_map_of_mem Prod.fst hin) hnotin
      · have hge := (List.pairwise_append.mp hsorted).2.2 p hp _ hin
        simpa [countGe, decide_eq_true_eq] using hge

/-- Witness for C8 at a concrete input: a categorical column with three
distinct values charts all three bars. -/
theorem bar_chart_top15_witness :
    ∃ bars,
      generate_value_counts_bar_chart dfCity "city" = .ok (.barChartFig "city" bars) ∧
      bars.length = min 15 (nuniqueNN (dfCity.colValues "city")) ∧
      (∀ p ∈ bars, p.1 ∈ firstUniques (dropna (dfCity.colValues "city")) ∧
        p.2 = (dropna (dfCity.colValues "city")).count p.1) ∧
      (∀ p ∈ bars, ∀ w ∈ firstUniques (dropna (dfCity.colValues "city")),
        w ∉ bars.map Prod.fst → (dropna (dfCity.colValues "city")).count w ≤ p.2) :=
  (bar_chart_top15 dfCity "city" rfl).2 (by decide)

/-- Splitting a transcript splits its emitted items. -/
theorem transcriptSection_append (h1 h2 : List ChatMessage) :
    transcriptSection (h1 ++ h2) = transcriptSection h1 ++ transcriptSection h2 := by
  simp [transcriptSection]

/-- Image count of one message block: one for a chart entry, none
otherwise. -/
theorem imageCount_messageItems (m : ChatMessage) :
    imageCount (messageItems m) = if isPlotMessage m then 1 else 0 := by
  by_cases hm : m.msgType = some "plot_with_interpretation" <;>
    simp [messageItems, imageCount, isPlotMessage, hm]

/-- The transcript section embeds exactly one image per chart entry. -/
theorem imageCount_transcript (h : List ChatMessage) :
    imageCount (transcriptSection h) = h.countP isPlotMessage := by
  induction h with
  | nil => rfl
  | cons m rest ih =>
    have hsplit : transcriptSection (m :: rest) = messageItems m ++ transcriptSection rest := by
      simp [transcriptSection]
    rw [hsplit, imageCount, List.countP_append, List.countP_cons]
    have h1 : List.countP (fun i => match i with | .image _ => true | _ => false)
        (messageItems m) = imageCount (messageItems m) := rfl
    have h2 : List.countP (fun i => match i with | .image _ => true | _ => false)
        (transcriptSection rest) = imageCount (transcriptSection rest) := rfl
    rw [h1, h2, ih, imageCount_messageItems]
    by_cases hm : isPlotMessage m = true
    · simp [hm]
      omega
    · simp [hm]

/-- C9: a transcript whose only chart-with-interpretation entry is `e`
serializes into the transcript section of the report as exactly one
embedded image, placed right after that entry user-question text and,
with its interpretation text, before the items of the next entry; the
section appears verbatim inside the full report. -/
theorem transcript_single_plot_roundtrip (h1 h2 : List ChatMessage) (e : ChatMessage)
    (conclusion fileName analysisDate : String)
    (he : isPlotMessage e = true)
    (h1none : ∀ m ∈ h1, isPlotMessage m = false)
    (h2none : ∀ m ∈ h2, isPlotMessage m = false) :
    transcriptSection (h1 ++ e :: h2) =
      transcriptSection h1 ++
        (PdfItem.body (latin1Sanitize ("Usuário: " ++ e.user)) ::
         PdfItem.body (latin1Sanitize "Agente: (Gráfico gerado abaixo com interpretação)") ::
         PdfItem.image e.plot ::
         PdfItem.body (latin1Sanitize ("Interpretação do Agente:\n" ++ e.interpretation)) ::
         transcriptSection h2) ∧
    imageCount (transcriptSection (h1 ++ e :: h2)) = 1 ∧
    imageCount (transcriptSection h1) = 0 ∧
    imageCount (transcriptSection h2) = 0 ∧
    create_pdf_report (h1 ++ e :: h2) conclusion fileName analysisDate [] =
      [PdfItem.chapterTitle "1. Resumo da Análise",
       PdfItem.body (latin1Sanitize ("Arquivo Analisado: " ++ fileName)),
       PdfItem.body (latin1Sanitize ("Data da Análise: " ++ analysisDate)),
       PdfItem.chapterTitle "2. Conclusão Principal Gerada pela IA",
       PdfItem.body (latin1Sanitize conclusion),
       PdfItem.pageBreak,
       PdfItem.chapterTitle "4. Análise Detalhada (Histórico do Chat)"]
        ++ transcriptSection (h1 ++ e :: h2) := by
  have hmt : e.msgType = some "plot_with_interpretation" := by
    simpa [isPlotMessage] using he
  have hz1 : h1.countP isPlotMessage = 0 :=
    List.countP_eq_zero.mpr (fun m hm => by simp [h1none m hm])
  have hz2 : h2.countP isPlotMessage = 0 :=
    List.countP_eq_zero.mpr (fun m hm => by simp [h2none m hm])
  refine ⟨?_, ?_, ?_, ?_, ?_⟩
  · rw [transcriptSection_append]
    have hcons : transcriptSection (e :: h2) = messageItems e ++ transcriptSection h2 := by
      simp [transcriptSection]
    rw [hcons]
    simp [messageItems, hmt]
  · rw [imageCount_transcript, List.countP_append, List.countP_cons, hz1, hz2]
    simp [he]
  · rw [imageCount_transcript, hz1]
  · rw [imageCount_transcript, hz2]
  · have hne : (h1 ++ e :: h2).isEmpty = false := by
      cases h1 <;> rfl
    simp [create_pdf_report, hne]

/-- Witness for C9 at a concrete input: a two-entry transcript with one
chart entry yields exactly one embedded image. -/
theorem transcript_single_plot_roundtrip_witness :
    imageCount (transcriptSection ([msgText] ++ msgPlot :: [])) = 1 :=
  (transcript_single_plot_roundtrip [msgText] [] msgPlot "c" "f" "d"
    (by decide) (by decide) (by decide)).2.1
